import Mathlib

/-!
Shallow embedding of the SyriaGPT intelligent Q&A pipeline
(src/services/ai/intelligent_qa_service.py, qdrant_service.py,
embedding_service.py, news_integration_service.py and
src/services/repositories/qa_pair_repository.py), together with theorems
settling the specification claims about it.

Modelling conventions:
- Python floats are modelled as rationals (ℚ); the square root used by
  numpy.linalg.norm is passed in as an abstract function where it matters.
- Python dicts with string keys are modelled as association lists
  (type Dict below); only string-valued entries are relevant to any claim,
  so values are strings.
- External effects (the embedding provider, the Qdrant server, the
  PostgreSQL commit outcome, uuid4 and time.time) are supplied by an
  environment record Env; mutable stores are threaded through an explicit
  SysState.
- A raised Python exception is an Except.error carrying a PyErr; a
  try/except block is a match on that Except.
-/

/-- A raised Python exception, by class. -/
inductive PyErr where
  | attributeError : String → PyErr
  | typeError : String → PyErr
  | runtimeError : String → PyErr
deriving DecidableEq

/-- The str(e) message of an exception. -/
def PyErr.msg : PyErr → String
  | PyErr.attributeError m => m
  | PyErr.typeError m => m
  | PyErr.runtimeError m => m

/-- A Python dict with string keys; only string-valued entries matter to the
claims, so values are strings. Keys are kept unique by dictSet. -/
abbrev Dict := List (String × String)

/-- Dictionary lookup, d.get(k). -/
def dictGet (d : Dict) (k : String) : Option String :=
  (d.find? (fun kv => kv.1 == k)).map (fun kv => kv.2)

/-- Dictionary lookup with default, d.get(k, default). -/
def dictGetD (d : Dict) (k defaultVal : String) : String :=
  (dictGet d k).getD defaultVal

/-- Remove a key from a dict. -/
def dictErase (d : Dict) (k : String) : Dict :=
  d.filter (fun kv => kv.1 != k)

/-- Set a key in a dict, overriding an existing binding: d[k] = v. -/
def dictSet (d : Dict) (k v : String) : Dict :=
  dictErase d k ++ [(k, v)]

/-- Python dict union \x7b**base, **extra\x7d: entries of extra override base. -/
def dictUnion (base extra : Dict) : Dict :=
  extra.foldl (fun acc kv => dictSet acc kv.1 kv.2) base

/-- A row of the qa_pairs table (src/models/domain/qa_pair.py). The
server-set created_at/updated_at timestamps are not referenced by any claim
and are omitted. The table has a primary key on id only: no unique
constraint involves question_text (src/migrations/versions/add_qa_pairs_table.py). -/
structure QAPairRow where
  id : String
  question_text : String
  answer_text : String
  user_id : Option String
  confidence : ℚ
  source : String
  language : String
  qa_metadata : Dict
deriving DecidableEq

/-- A stored point of the Qdrant collection: id, vector and payload
(qdrant_service.py, PointStruct). -/
structure QdrantPoint where
  point_id : String
  vector : List ℚ
  payload : Dict
deriving DecidableEq

/-- One formatted hit of qdrant search_similar_questions
(qdrant_service.py:188-200). -/
structure Hit where
  qa_id : Option String
  question : Option String
  answer : Option String
  similarity_score : ℚ
  metadata : Dict
deriving DecidableEq

/-- Result record of gemini_service.answer_question (gemini_service.py:155-164);
only the claim-relevant fields are kept. -/
structure GeminiAnswer where
  answer : String
  confidence : ℚ
  language : String
  model_used : String
deriving DecidableEq

/-- The response dict built by IntelligentQAService._format_response /
_format_error (intelligent_qa_service.py:609-650). The processing_time,
timestamp and metadata entries are not referenced by any claim and are
omitted. -/
structure QAResponse where
  answer : Option String
  error : Option String
  confidence : ℚ
  source : String
  steps : List String
  status : String
  reason : Option String
deriving DecidableEq

/-- Mutable system state threaded through the pipeline: the qa_pairs table,
the Qdrant collection, counters feeding the uuid4 streams, and the
IntelligentQAService._initialized flag. -/
structure SysState where
  pg : List QAPairRow
  qd : List QdrantPoint
  rowCtr : Nat
  pointCtr : Nat
  inited : Bool
deriving DecidableEq

/-- Environment of external effects: the embedding provider call, the Qdrant
similarity scoring and connectivity, the PostgreSQL commit outcome, the
Gemini client (present because the source calls it, although no reachable
path of process_question does), abs(hash(.)), int(time.time()) and the two
uuid4 streams. -/
structure Env where
  embed : String → Except PyErr (List ℚ)
  similarity : List ℚ → List ℚ → ℚ
  qdrantConnected : Bool
  pgCreateOk : Bool
  geminiAnswer : String → Option String → Except PyErr GeminiAnswer
  hashQ : String → Nat
  now : Nat
  freshRowUuid : Nat → String
  freshPointUuid : Nat → String
  initOk : Bool

/-- Collapse every run of whitespace to a single space, tracking whether the
previous character was whitespace: re.sub of one or more whitespace
characters with a single space (intelligent_qa_service.py:597). -/
def collapseWsAux : List Char → Bool → List Char
  | [], _ => []
  | c :: cs, prev =>
    if c.isWhitespace then
      if prev then collapseWsAux cs true else ' ' :: collapseWsAux cs true
    else c :: collapseWsAux cs false

/-- Python str.strip() with no argument: drop whitespace from both ends. -/
def stripWs (s : List Char) : List Char :=
  ((s.dropWhile Char.isWhitespace).reverse.dropWhile Char.isWhitespace).reverse

/-- The Arabic letters probed by the light script heuristic
(intelligent_qa_service.py:602). -/
def arabicChars : List Char :=
  "أبتثجحخدذرزسشصضطظعغفقكلمنهوي".data

/-- True when the string contains one of the probed Arabic letters. -/
def containsArabic (s : String) : Bool :=
  s.data.any (fun c => arabicChars.contains c)

/-- Whether the string ends with the given character; each suffix probed by
the source (?, ؟ and the period) is a single character, so
str.endswith((..)) is a check on the last character. -/
def endsWithChar (s : String) (c : Char) : Bool :=
  match s.data.getLast? with
  | some x => x == c
  | none => false

/-- IntelligentQAService._normalize_question (intelligent_qa_service.py:592-607):
strip, collapse whitespace, and append a terminal question mark (Arabic ؟ when
an Arabic letter occurs, else ?) unless the text already ends with ?, ؟ or a
period. The enclosing try/except returns the input unchanged only if one of
these pure string operations raised, which cannot happen. -/
def normalize_question (question : String) : String :=
  let normalized := String.mk (collapseWsAux (stripWs question.data) false)
  if endsWithChar normalized '?' || endsWithChar normalized '؟' || endsWithChar normalized '.' then
    normalized
  else if containsArabic normalized then normalized ++ "؟"
  else normalized ++ "?"

/-- Sum of squares of a vector; numpy.linalg.norm is its square root. -/
def sumSq (l : List ℚ) : ℚ :=
  (l.map (fun x => x * x)).sum

/-- numpy.dot of two equal-length vectors. -/
def dotList : List ℚ → List ℚ → ℚ
  | x :: xs, y :: ys => x * y + dotList xs ys
  | _, _ => 0

/-- EmbeddingService.compute_similarity (embedding_service.py:141-177):
truncate both vectors to the shorter length when lengths differ, then return
0.0 when either norm is zero, else dot / (n1 * n2). The square root of
numpy.linalg.norm is the abstract argument sqrt applied to the sum of
squares. The enclosing try/except returns 0.0 only on a numpy-level error,
which the pure model cannot raise. -/
def compute_similarity (sqrt : ℚ → ℚ) (embedding1 embedding2 : List ℚ) : ℚ :=
  let minLen := min embedding1.length embedding2.length
  let vec1 := if embedding1.length = embedding2.length then embedding1 else embedding1.take minLen
  let vec2 := if embedding1.length = embedding2.length then embedding2 else embedding2.take minLen
  let dot := dotList vec1 vec2
  let n1 := sqrt (sumSq vec1)
  let n2 := sqrt (sumSq vec2)
  if n1 = 0 ∨ n2 = 0 then 0 else dot / (n1 * n2)

/-- The per-item tail of EmbeddingService.generate_embedding
(embedding_service.py:104-125) after the provider result has been extracted
and converted to a list: extracted = none models a missing embedding in the
provider result (the code raises RuntimeError), an empty list is falsy and
also raises, and otherwise the embedding is resized when output_dim is
truthy and the length differs: e[:d] + [0.0] * (d - len(e)), where a
negative replication count yields the empty list exactly as Nat subtraction
does here. -/
def generate_embedding_item (output_dim : Option Nat) (extracted : Option (List ℚ)) :
    Except String (List ℚ) :=
  match extracted with
  | none => Except.error "failed to extract embedding from result"
  | some embedding =>
    if embedding.isEmpty then Except.error "failed to extract embedding from result"
    else
      let resized :=
        match output_dim with
        | some d =>
          if d ≠ 0 ∧ embedding.length ≠ d then
            embedding.take d ++ List.replicate (d - embedding.length) (0 : ℚ)
          else embedding
        | none => embedding
      Except.ok resized

/-- The module-level instantiation EmbeddingService(output_dim=768)
(embedding_service.py:343). -/
def embedding_service_output_dim : Option Nat :=
  some 768

/-- Qdrant client.upsert of a single point: replace the point carrying the
same point id if one exists, else append (last writer wins per point id). -/
def qdrant_upsert (points : List QdrantPoint) (p : QdrantPoint) : List QdrantPoint :=
  if points.any (fun q => q.point_id == p.point_id) then
    points.map (fun q => if q.point_id == p.point_id then p else q)
  else points ++ [p]

/-- QdrantService.store_qa_embedding (qdrant_service.py:83-134). Its
parameters are exactly qa_id, question, embedding and metadata: there is no
answer parameter. It builds the payload \x7b"question": question, "qa_id": qa_id,
"question_id": qa_id, **metadata\x7d, creates a point whose id is a fresh
str(uuid4()) — not derived from qa_id — and upserts it, returning True; when
the client is absent or not connected it returns False without writing. A
server-side upsert failure (the except branch, also returning False) is
subsumed by the not-connected case. -/
def store_qa_embedding (env : Env) (st : SysState) (qa_id question : String)
    (embedding : List ℚ) (metadata : Option Dict) : Bool × SysState :=
  if env.qdrantConnected = false then (false, st)
  else
    let payload := dictUnion
      [("question", question), ("qa_id", qa_id), ("question_id", qa_id)]
      (metadata.getD [])
    let point : QdrantPoint :=
      { point_id := env.freshPointUuid st.pointCtr, vector := embedding, payload := payload }
    (true, { st with qd := qdrant_upsert st.qd point, pointCtr := st.pointCtr + 1 })

/-- QAPairRepository.create_qa_pair (qa_pair_repository.py:17-65): build the
row (its id a fresh uuid4), add and commit. A commit failure rolls back (the
row is not persisted) and re-raises; env.pgCreateOk supplies that outcome. -/
def create_qa_pair (env : Env) (st : SysState) (question_text answer_text : String)
    (user_id : Option String) (confidence : ℚ) (source : String) (language : String)
    (metadata : Dict) : Except PyErr QAPairRow × SysState :=
  if env.pgCreateOk then
    let row : QAPairRow :=
      { id := env.freshRowUuid st.rowCtr, question_text := question_text,
        answer_text := answer_text, user_id := user_id, confidence := confidence,
        source := source, language := language, qa_metadata := metadata }
    (Except.ok row, { st with pg := st.pg ++ [row], rowCtr := st.rowCtr + 1 })
  else
    (Except.error (PyErr.runtimeError "failed to create qa pair"), st)

/-- QAPairRepository.get_qa_pair_by_question_id (qa_pair_repository.py:84-102):
first row whose JSON metadata contains \x7b"qa_id": question_id\x7d. -/
def get_qa_pair_by_question_id (st : SysState) (question_id : String) : Option QAPairRow :=
  st.pg.find? (fun r => dictGet r.qa_metadata "qa_id" == some question_id)

/-- Build one formatted hit from a stored point and its score
(qdrant_service.py:188-200): qa_id, question and answer are read from the
payload (the payload never holds an answer key, store_qa_embedding does not
accept one), and the remaining payload entries form the metadata. -/
def hitOfPoint (p : QdrantPoint) (score : ℚ) : Hit :=
  { qa_id := dictGet p.payload "qa_id",
    question := dictGet p.payload "question",
    answer := dictGet p.payload "answer",
    similarity_score := score,
    metadata := p.payload.filter
      (fun kv => kv.1 != "qa_id" && kv.1 != "question" && kv.1 != "answer") }

/-- Insert a hit into a list sorted by descending similarity score. -/
def insertHitDesc (h : Hit) : List Hit → List Hit
  | [] => [h]
  | x :: xs =>
    if x.similarity_score < h.similarity_score then h :: x :: xs
    else x :: insertHitDesc h xs

/-- Sort hits by descending similarity score (the order Qdrant returns). -/
def sortHitsDesc (l : List Hit) : List Hit :=
  l.foldr insertHitDesc []

/-- QdrantService.search_similar_questions (qdrant_service.py:136-207): when
not connected (or on a server error) return []; otherwise score every stored
point against the query embedding, keep scores at or above score_threshold,
sort descending and take the limit. The optional payload filters argument is
always None at the call sites modelled here and is omitted. -/
def search_similar_questions (env : Env) (st : SysState) (query_embedding : List ℚ)
    (limit : Nat) (score_threshold : ℚ) : List Hit :=
  if env.qdrantConnected = false then []
  else
    let scored := st.qd.map (fun p => hitOfPoint p (env.similarity query_embedding p.vector))
    (sortHitsDesc (scored.filter
      (fun h => decide (score_threshold ≤ h.similarity_score)))).take limit

/-- IntelligentQAService._format_response (intelligent_qa_service.py:609-630). -/
def format_response (answer : String) (source : String) (confidence : ℚ)
    (steps : List String) : QAResponse :=
  { answer := some answer, error := none, confidence := confidence, source := source,
    steps := steps, status := "success", reason := none }

/-- IntelligentQAService._format_error (intelligent_qa_service.py:632-650). -/
def format_error (error_message : String) (steps : List String) (reason : String) : QAResponse :=
  { answer := none, error := some error_message, confidence := 0, source := "error",
    steps := steps, status := "error", reason := some reason }

/-- The semantic_search_threshold constant 0.85 (intelligent_qa_service.py:47),
written as the reduced fraction 17/20 in constructor form so that kernel
evaluation computes with it; the theorem semantic_search_threshold_eq below
ties it to the decimal literal. -/
def semantic_search_threshold : ℚ :=
  Rat.mk' 17 20

/-- The quality_threshold constant 0.95 (intelligent_qa_service.py:48), as
the reduced fraction 19/20 in constructor form; see quality_threshold_eq. -/
def quality_threshold : ℚ :=
  Rat.mk' 19 20

/-- IntelligentQAService.ensure_initialized (intelligent_qa_service.py:151-166):
a no-op when already marked initialized; otherwise initialize_system runs the
collection setup and health checks, whose core outcome env.initOk summarizes. -/
def ensure_inited (env : Env) (st : SysState) : SysState :=
  if st.inited then st else { st with inited := env.initOk }

/-- IntelligentQAService._store_new_qa_pair (intelligent_qa_service.py:353-403).
Inside one try block: build qa_id as qa_(abs(hash(question)))_(int(time.time())),
create the row in PostgreSQL (metadata extended with the qa_id; source from
metadata model_used defaulting to gemini_api, language from metadata
defaulting to auto), then call qdrant_service.store_qa_embedding with
keywords qa_id, question, answer, embedding, metadata. store_qa_embedding
(qdrant_service.py:83-89) declares no answer parameter, so that call raises
TypeError before its body runs; the enclosing except Exception
(intelligent_qa_service.py:401-403) catches it and returns False. The
committed PostgreSQL row survives. Consequently the tolerance branch for a
False qdrant result (lines 395-399, which would log a warning and return
True) is unreachable, as is the return True at line 399. A create failure
also lands in the except branch: False is returned and no vector write is
attempted. The freshly returned ORM row is truthy, so the
`if not qa_pair: return False` guard never fires on success. -/
def store_new_qa_pair (env : Env) (st : SysState) (question answer : String)
    (embedding : List ℚ) (confidence : ℚ) (metadata : Dict)
    (user_id : Option String) : Bool × SysState :=
  let h := env.hashQ question
  let t := env.now
  let qa_id := s!"qa_{h}_{t}"
  match create_qa_pair env st question answer user_id confidence
      (dictGetD metadata "model_used" "gemini_api")
      (dictGetD metadata "language" "auto")
      (dictSet metadata "qa_id" qa_id) with
  | (Except.error _, st1) => (false, st1)
  | (Except.ok _, st1) =>
    -- qdrant_service.store_qa_embedding(qa_id=..., question=..., answer=answer,
    -- embedding=..., metadata=...) raises TypeError: unexpected keyword `answer`;
    -- caught by the broad except, returning False with no vector written.
    (false, st1)

/-- The AttributeError message raised at intelligent_qa_service.py:248 (its
Python quoting elided): WebScrapingService defines no method named
get_content_for_context (see web_scraping_service.py, whose public surface is
initialize, cleanup, scrape_news_sources, get_scraping_stats and
clear_scraped_urls). -/
def webScrapeAttrErrMsg : String :=
  "WebScrapingService object has no attribute get_content_for_context"

/-- IntelligentQAService.process_question (intelligent_qa_service.py:168-351).
Ensure initialization, normalize, embed (a raised embedding error is caught
by the outer handler as internal_error; a falsy embedding returns the
embedding_failure error), search Qdrant with limit 5 at the 0.85 floor, and
on a hit at or above quality_threshold whose qa_id resolves in PostgreSQL
return the stored answer with source vector_search and confidence equal to
the score. Every other continuation reaches line 248, which calls the
nonexistent method web_scraping_service.get_content_for_context: Python
attribute lookup raises AttributeError, the outer except (line 347) catches
it, and the pipeline returns the internal_error response. The code below
line 248 — web context use, the Gemini call, the vector_search_fallback
ladder (lines 267-299), storage and variant generation — is unreachable. The
user_id, context and language arguments are consumed only by that dead
region. -/
def process_question (env : Env) (st0 : SysState) (question : String)
    (user_id : Option String) (context : Option String) (language : String) :
    QAResponse × SysState :=
  let st := ensure_inited env st0
  let normalized := normalize_question question
  let steps1 : List String := ["input_normalized"]
  match env.embed normalized with
  | Except.error e =>
    (format_error s!"Processing error: {e.msg}" steps1 "internal_error", st)
  | Except.ok question_embedding =>
    if question_embedding.isEmpty then
      (format_error "Unable to process question due to embedding service failure"
        steps1 "embedding_failure", st)
    else
      let steps2 := steps1 ++ ["embedding_generated"]
      let similar_qa_pairs :=
        search_similar_questions env st question_embedding 5 semantic_search_threshold
      let steps3 :=
        if similar_qa_pairs.isEmpty then steps2 else steps2 ++ ["semantic_search_hit"]
      let hitResult : Option QAResponse :=
        match similar_qa_pairs with
        | best :: _ =>
          if quality_threshold ≤ best.similarity_score then
            match get_qa_pair_by_question_id st (best.qa_id.getD "") with
            | some qa_pair =>
              some (format_response qa_pair.answer_text "vector_search"
                best.similarity_score steps3)
            | none => none
          else none
        | [] => none
      match hitResult with
      | some r => (r, st)
      | none =>
        let steps4 := steps3 ++ ["semantic_search_miss_or_low_quality"]
        (format_error s!"Processing error: {webScrapeAttrErrMsg}" steps4 "internal_error", st)

/-- One converted news Q&A candidate as built by
NewsIntegrationService._process_qa_pair (news_integration_service.py:227-266);
only the fields read by _store_qa_pairs are kept. -/
structure NewsQaPair where
  id : String
  question : String
  answer : String
  metadata : Dict
deriving DecidableEq

/-- NewsIntegrationService._store_qa_pairs (news_integration_service.py:268-308).
For each pair, inside a per-pair try: embed the question (a raised embedding
error skips the pair; a falsy embedding continues), then call
qdrant_service.store_qa_embedding with keywords qa_id, question, answer,
embedding, metadata — which raises TypeError (store_qa_embedding declares no
answer parameter), is caught by the per-pair except and skips the pair
without incrementing stored_count. The path contains no PostgreSQL write at
all: no repository call occurs anywhere in the function. The returned number
is the stored_count of the result dict. -/
def news_store_qa_pairs (env : Env) (st : SysState) (qa_pairs : List NewsQaPair) :
    Nat × SysState :=
  match qa_pairs with
  | [] => (0, st)
  | p :: rest =>
    match env.embed p.question with
    | Except.error _ => news_store_qa_pairs env st rest
    | Except.ok question_embedding =>
      if question_embedding.isEmpty then news_store_qa_pairs env st rest
      else
        -- store_qa_embedding(qa_id=..., question=..., answer=..., ...) raises
        -- TypeError; the per-pair except swallows it and the loop continues.
        news_store_qa_pairs env st rest

/-- Empty initial state with the service already marked initialized. -/
def stEmpty : SysState :=
  { pg := [], qd := [], rowCtr := 0, pointCtr := 0, inited := true }

/-- Concrete environment: embedding succeeds with [1], both stores reachable,
Gemini answers; used for concrete executions. -/
def envGen : Env :=
  { embed := fun _ => Except.ok [1],
    similarity := fun _ _ => 1,
    qdrantConnected := true,
    pgCreateOk := true,
    geminiAnswer := fun _ _ =>
      Except.ok { answer := "Damascus", confidence := Rat.mk' 9 10, language := "en",
                  model_used := "gemini-1.5-flash" },
    hashQ := fun s => s.length,
    now := 0,
    freshRowUuid := fun n => s!"row-{n}",
    freshPointUuid := fun n => s!"pt-{n}",
    initOk := true }

/-- Concrete environment with the Gemini quota exhausted and every stored
vector scoring 0.40 against any query; embedding succeeds with [1]. -/
def envQuota04 : Env :=
  { embed := fun _ => Except.ok [1],
    similarity := fun _ _ => Rat.mk' 2 5,
    qdrantConnected := true,
    pgCreateOk := true,
    geminiAnswer := fun _ _ =>
      Except.error (PyErr.runtimeError "429 You exceeded your current quota"),
    hashQ := fun s => s.length,
    now := 0,
    freshRowUuid := fun n => s!"row-{n}",
    freshPointUuid := fun n => s!"pt-{n}",
    initOk := true }

/-- Concrete environment whose embedding call raises. -/
def envEmbedFail : Env :=
  { embed := fun _ => Except.error (PyErr.runtimeError "embedding backend down"),
    similarity := fun _ _ => 1,
    qdrantConnected := true,
    pgCreateOk := true,
    geminiAnswer := fun _ _ =>
      Except.ok { answer := "Damascus", confidence := Rat.mk' 9 10, language := "en",
                  model_used := "gemini-1.5-flash" },
    hashQ := fun s => s.length,
    now := 0,
    freshRowUuid := fun n => s!"row-{n}",
    freshPointUuid := fun n => s!"pt-{n}",
    initOk := true }

/-- State holding one cached pair: a Qdrant point with qa_id qa_1 and the
matching PostgreSQL row (so a fallback lookup would succeed). -/
def stOneCached : SysState :=
  { pg := [{ id := "row-prior", question_text := "cached q?", answer_text := "cached a",
             user_id := none, confidence := Rat.mk' 9 10, source := "gemini_api",
             language := "en", qa_metadata := [("qa_id", "qa_1")] }],
    qd := [{ point_id := "pt-prior", vector := [1],
             payload := [("question", "cached q?"), ("qa_id", "qa_1"),
                         ("question_id", "qa_1")] }],
    rowCtr := 1, pointCtr := 1, inited := true }

/-- Concrete environment in which the PostgreSQL commit fails. -/
def envPgFail : Env :=
  { embed := fun _ => Except.ok [1],
    similarity := fun _ _ => 1,
    qdrantConnected := true,
    pgCreateOk := false,
    geminiAnswer := fun _ _ =>
      Except.ok { answer := "Damascus", confidence := Rat.mk' 9 10, language := "en",
                  model_used := "gemini-1.5-flash" },
    hashQ := fun s => s.length,
    now := 0,
    freshRowUuid := fun n => s!"row-{n}",
    freshPointUuid := fun n => s!"pt-{n}",
    initOk := true }

/-! Helper lemmas shared by the claim theorems. -/

/-- A sum of squares of rationals is nonnegative. -/
theorem sumSq_nonneg (l : List ℚ) : 0 ≤ sumSq l := by
  induction l with
  | nil => simp [sumSq]
  | cons x xs ih =>
    have hx : 0 ≤ x * x := mul_self_nonneg x
    simp only [sumSq, List.map_cons, List.sum_cons] at *
    linarith

/-- A prefix of a vector whose sum of squares is zero also has a zero sum of
squares. -/
theorem sumSq_take_eq_zero (l : List ℚ) (h : sumSq l = 0) (n : Nat) :
    sumSq (l.take n) = 0 := by
  induction l generalizing n with
  | nil => cases n <;> simp [sumSq]
  | cons x xs ih =>
    have hx : 0 ≤ x * x := mul_self_nonneg x
    have hxs : 0 ≤ sumSq xs := sumSq_nonneg xs
    have hsum : x * x + sumSq xs = 0 := by
      simpa [sumSq, List.map_cons, List.sum_cons] using h
    have hx0 : x * x = 0 := by linarith
    have hxs0 : sumSq xs = 0 := by linarith
    cases n with
    | zero => simp [sumSq]
    | succ m =>
      have := ih hxs0 m
      simp only [List.take_succ_cons, sumSq, List.map_cons, List.sum_cons] at *
      linarith

/-- C9. Zero-norm similarity: for every pair of embedding vectors where at
least one vector has zero norm (its sum of squares is zero, hence its
numpy norm is zero), compute_similarity returns 0.0 rather than dividing by
zero, for any square-root function that sends 0 to 0. -/
theorem compute_similarity_zero_norm_eq_zero (sqrt : ℚ → ℚ) (e1 e2 : List ℚ)
    (hs : sqrt 0 = 0) (h : sumSq e1 = 0 ∨ sumSq e2 = 0) :
    compute_similarity sqrt e1 e2 = 0 := by
  rcases h with h1 | h2
  · have hv : sqrt (sumSq (if e1.length = e2.length then e1
        else e1.take (min e1.length e2.length))) = 0 := by
      split
      · rw [h1]; exact hs
      · rw [sumSq_take_eq_zero e1 h1]; exact hs
    simp only [compute_similarity]
    rw [hv]
    simp
  · have hv : sqrt (sumSq (if e1.length = e2.length then e2
        else e2.take (min e1.length e2.length))) = 0 := by
      split
      · rw [h2]; exact hs
      · rw [sumSq_take_eq_zero e2 h2]; exact hs
    simp only [compute_similarity]
    rw [hv]
    simp

/-- C9 witness: at sqrt = id, e1 = [0, 0] (zero norm) and e2 = [1, 2], the
hypotheses hold and the similarity is 0. -/
theorem compute_similarity_zero_norm_eq_zero_witness :
    (id (0 : ℚ) = 0) ∧ (sumSq [0, 0] = 0 ∨ sumSq [1, 2] = 0) ∧
      compute_similarity id [0, 0] [1, 2] = 0 :=
  ⟨rfl, Or.inl (by norm_num [sumSq]),
    compute_similarity_zero_norm_eq_zero id [0, 0] [1, 2] rfl
      (Or.inl (by norm_num [sumSq]))⟩

/-- C10. Fixed embedding dimension by coercion: with the service constructed
at output_dim = 768 (embedding_service.py:343), every successfully produced
embedding has length exactly 768 — a longer provider result is truncated to
its first 768 entries and a shorter one is right-padded with zeros. -/
theorem generate_embedding_output_dim_768 (extracted : Option (List ℚ)) (v : List ℚ)
    (h : generate_embedding_item embedding_service_output_dim extracted = Except.ok v) :
    v.length = 768 := by
  cases extracted with
  | none => simp [generate_embedding_item] at h
  | some e =>
    simp only [generate_embedding_item, embedding_service_output_dim] at h
    by_cases he : e.isEmpty
    · simp [he] at h
    · simp only [he, Bool.false_eq_true, if_false] at h
      have hv : (if 768 ≠ 0 ∧ e.length ≠ 768 then
          e.take 768 ++ List.replicate (768 - e.length) (0 : ℚ) else e) = v := by
        exact Except.ok.inj h
      split at hv
      · subst hv
        simp only [List.length_append, List.length_take, List.length_replicate]
        omega
      · rename_i hcond
        push_neg at hcond
        have hlen : e.length = 768 := hcond (by omega)
        subst hv
        exact hlen

/-- C10 witness: a three-entry provider result is padded to length 768. -/
theorem generate_embedding_output_dim_768_witness :
    generate_embedding_item embedding_service_output_dim (some [1, 1, 1]) =
        Except.ok ([1, 1, 1] ++ List.replicate 765 (0 : ℚ)) ∧
      (([1, 1, 1] ++ List.replicate 765 (0 : ℚ)).length = 768) :=
  ⟨by rfl,
    generate_embedding_output_dim_768 (some [1, 1, 1])
      ([1, 1, 1] ++ List.replicate 765 (0 : ℚ)) (by rfl)⟩

/-- Sanity: the constructor-form search floor is the source literal 0.85. -/
theorem semantic_search_threshold_eq : semantic_search_threshold = 0.85 := by
  unfold semantic_search_threshold
  rw [Rat.mk'_eq_divInt, Rat.divInt_eq_div]
  norm_num

/-- Sanity: the constructor-form quality threshold is the source literal 0.95. -/
theorem quality_threshold_eq : quality_threshold = 0.95 := by
  unfold quality_threshold
  rw [Rat.mk'_eq_divInt, Rat.divInt_eq_div]
  norm_num

/-- C1 counterexample: two sequential admissions of the same normalized
question "q?" into an empty store leave two QAPair rows with that question
text — the admission path has no single-flight guard and performs no
find_by_question_text check, so at-most-once admission fails. -/
theorem admission_two_admits_two_rows :
    ((store_new_qa_pair envGen
        (store_new_qa_pair envGen stEmpty "q?" "a" [1] 1 [] none).2
        "q?" "a" [1] 1 [] none).2.pg.filter
      (fun r => r.question_text == "q?")).length = 2 := by decide

/-- C1 (amended). The admission path deduplicates nothing: whenever the
canonical create succeeds, _store_new_qa_pair appends one fresh QAPair row
with the given question text — regardless of any existing row with the same
text — reports False, and leaves the vector index untouched. -/
theorem store_new_qa_pair_always_inserts (env : Env) (st : SysState) (q a : String)
    (emb : List ℚ) (conf : ℚ) (meta : Dict) (uid : Option String)
    (h : env.pgCreateOk = true) :
    (store_new_qa_pair env st q a emb conf meta uid).1 = false ∧
    (store_new_qa_pair env st q a emb conf meta uid).2.pg.map QAPairRow.question_text =
      st.pg.map QAPairRow.question_text ++ [q] ∧
    (store_new_qa_pair env st q a emb conf meta uid).2.qd = st.qd := by
  unfold store_new_qa_pair create_qa_pair
  simp [h]

/-- C1 witness: the amended statement at the concrete admission of "q?" into
the empty store. -/
theorem store_new_qa_pair_always_inserts_witness :
    envGen.pgCreateOk = true ∧
    (store_new_qa_pair envGen stEmpty "q?" "a" [1] 1 [] none).2.pg.map
        QAPairRow.question_text =
      stEmpty.pg.map QAPairRow.question_text ++ ["q?"] :=
  ⟨rfl, (store_new_qa_pair_always_inserts envGen stEmpty "q?" "a" [1] 1 [] none rfl).2.1⟩

/-- C2. The miss branch never completes: on a question with no stored vector
at or above the quality threshold, process_question reaches the call to the
nonexistent method web_scraping_service.get_content_for_context and returns
the internal_error response — no web context step, no Gemini call, no
admission, and no generated answer. -/
theorem process_question_miss_branch_internal_error :
    (process_question envGen stEmpty "What is the capital of Syria?" none none "auto").1 =
      { answer := none,
        error := some "Processing error: WebScrapingService object has no attribute get_content_for_context",
        confidence := 0, source := "error",
        steps := ["input_normalized", "embedding_generated",
                  "semantic_search_miss_or_low_quality"],
        status := "error", reason := some "internal_error" } := by decide

/-- C3. Admitting a pair and then asking the same question does not produce a
vector hit: the admission leaves the QAPair only in PostgreSQL (its Qdrant
write raises TypeError on the unexpected answer keyword), so the follow-up
ask finds no vector point, takes the miss branch and fails with
internal_error instead of returning source vector_search. -/
theorem admit_then_ask_is_error_not_vector_hit :
    ((store_new_qa_pair envGen stEmpty "What is the capital of Syria?" "Damascus"
        [1] 1 [] none).2.pg.map QAPairRow.question_text =
      ["What is the capital of Syria?"]) ∧
    ((store_new_qa_pair envGen stEmpty "What is the capital of Syria?" "Damascus"
        [1] 1 [] none).2.qd = []) ∧
    ((process_question envGen
        (store_new_qa_pair envGen stEmpty "What is the capital of Syria?" "Damascus"
          [1] 1 [] none).2
        "What is the capital of Syria?" none none "auto").1.source = "error") ∧
    ((process_question envGen
        (store_new_qa_pair envGen stEmpty "What is the capital of Syria?" "Damascus"
          [1] 1 [] none).2
        "What is the capital of Syria?" none none "auto").1.reason =
      some "internal_error") := by decide

/-- C4. In the admission path the canonical create does happen first and a
create failure prevents any vector write (second conjunct pair), but when the
create succeeds the subsequent vector write fails (TypeError on the answer
keyword) and the admission reports failure — returning False — rather than
the tolerated success the claim describes, while the created row persists. -/
theorem store_new_qa_pair_create_persists_but_reports_failure :
    ((store_new_qa_pair envGen stEmpty "q?" "a" [1] 1 [] none).1 = false) ∧
    ((store_new_qa_pair envGen stEmpty "q?" "a" [1] 1 [] none).2.pg.map
        QAPairRow.question_text = ["q?"]) ∧
    ((store_new_qa_pair envGen stEmpty "q?" "a" [1] 1 [] none).2.qd = []) ∧
    ((store_new_qa_pair envPgFail stEmpty "q?" "a" [1] 1 [] none).1 = false) ∧
    ((store_new_qa_pair envPgFail stEmpty "q?" "a" [1] 1 [] none).2 = stEmpty) := by
  decide

/-- C5 counterexample: with the Gemini quota exhausted and the one stored
pair scoring 0.40 against the query, ask does not return a vector_fallback
answer at confidence 0.40 — the 0.85 search floor already filtered the hit
out, the miss branch raises at the nonexistent web-context method, and the
result is the internal_error response with confidence 0 and no answer. -/
theorem fallback_scenario_returns_internal_error :
    ((process_question envQuota04 stOneCached "q?" none none "auto").1.source = "error") ∧
    ((process_question envQuota04 stOneCached "q?" none none "auto").1.reason =
      some "internal_error") ∧
    ((process_question envQuota04 stOneCached "q?" none none "auto").1.confidence = 0) ∧
    ((process_question envQuota04 stOneCached "q?" none none "auto").1.answer = none) := by
  decide

/-- C5 (amended). The LLM-failure fallback ladder is dead code: every
process_question result carries source "error" or "vector_search"; the
source "vector_search_fallback" (the code's name for the vector_fallback
tag) is never returned, because the miss branch always fails at the
nonexistent web-context method before the Gemini call. -/
theorem process_question_never_vector_search_fallback (env : Env) (st : SysState)
    (q : String) (uid ctx : Option String) (lang : String) :
    (process_question env st q uid ctx lang).1.source = "error" ∨
    (process_question env st q uid ctx lang).1.source = "vector_search" := by
  unfold process_question
  cases henv : env.embed (normalize_question q) with
  | error e => simp [henv, format_error]
  | ok emb =>
    simp only [henv]
    cases he : emb.isEmpty with
    | true => simp [he, format_error]
    | false =>
      simp only [he, Bool.false_eq_true, if_false]
      split
      · rename_i r heq
        split at heq
        · rename_i best rest
          split at heq
          · split at heq
            · rename_i qa_pair hqa
              injection heq with heq'
              subst heq'
              right; rfl
            · exact absurd heq (by simp)
          · exact absurd heq (by simp)
        · exact absurd heq (by simp)
      · left; rfl

/-- C6. The news-ingestion storage path creates nothing: for every input list
of converted news Q&A pairs, _store_qa_pairs leaves the system state — in
particular the canonical qa_pairs table — unchanged and reports
stored_count 0; it contains no canonical-store write at all, and its vector
write raises TypeError on the unexpected answer keyword and is swallowed
per pair. -/
theorem news_store_qa_pairs_creates_no_canonical_rows (env : Env) (st : SysState)
    (qa_pairs : List NewsQaPair) :
    (news_store_qa_pairs env st qa_pairs).1 = 0 ∧
    (news_store_qa_pairs env st qa_pairs).2 = st := by
  induction qa_pairs with
  | nil => exact ⟨rfl, rfl⟩
  | cons p rest ih =>
    unfold news_store_qa_pairs
    cases h : env.embed p.question with
    | error e =>
      simp only [h]
      exact ih
    | ok emb =>
      simp only [h, ite_self]
      exact ih

/-- C7 counterexample: the empty question is normalized to the nonempty
string "?" and process_question proceeds — the embedding call is performed
(its outcome determines the response) and the result is the miss-branch
internal_error, never a ValidationError. -/
theorem empty_question_not_validation_error :
    (normalize_question "" = "?") ∧
    ((process_question envGen stEmpty "" none none "auto").1.reason =
      some "internal_error") ∧
    ((process_question envGen stEmpty "" none none "auto").1.error =
      some "Processing error: WebScrapingService object has no attribute get_content_for_context") ∧
    ((process_question envEmbedFail stEmpty "" none none "auto").1.error =
      some "Processing error: embedding backend down") := by decide

/-- C7 (amended). Ask performs no empty-input validation: the empty question
is treated exactly like the question "?" — both normalize to "?" and the
pipeline behaves identically on them, proceeding to the embedding and search
steps instead of returning a ValidationError. -/
theorem process_question_empty_eq_question_mark (env : Env) (st : SysState)
    (uid ctx : Option String) (lang : String) :
    process_question env st "" uid ctx lang = process_question env st "?" uid ctx lang := by
  have hnq : normalize_question "" = normalize_question "?" := by decide
  unfold process_question
  rw [hnq]

/-- C8 counterexample: storing the same qa_id twice mints two distinct uuid4
point ids, so the collection ends with two points both carrying payload
qa_id qa_1 — repeated admission of the same qa_id accumulates duplicate
points instead of leaving a single canonical point. -/
theorem store_qa_embedding_same_qa_id_twice_two_points :
    ((store_qa_embedding envGen (store_qa_embedding envGen stEmpty "qa_1" "q?" [1] none).2
        "qa_1" "q?" [1] none).2.qd.map QdrantPoint.point_id = ["pt-0", "pt-1"]) ∧
    (((store_qa_embedding envGen (store_qa_embedding envGen stEmpty "qa_1" "q?" [1] none).2
        "qa_1" "q?" [1] none).2.qd.filter
      (fun p => dictGet p.payload "qa_id" == some "qa_1")).length = 2) := by decide

/-- Mapping a function that fixes every element of a list is the identity. -/
theorem list_map_fixpoints (f : QdrantPoint → QdrantPoint) (l : List QdrantPoint)
    (h : ∀ x ∈ l, f x = x) : l.map f = l := by
  induction l with
  | nil => rfl
  | cons x xs ih =>
    simp only [List.map_cons]
    rw [h x (by simp), ih (fun y hy => h y (by simp [hy]))]

/-- Upserting the same point twice equals upserting it once: the vector-index
upsert is idempotent per point id (last writer wins). -/
theorem qdrant_upsert_idem (c : List QdrantPoint) (p : QdrantPoint) :
    qdrant_upsert (qdrant_upsert c p) p = qdrant_upsert c p := by
  unfold qdrant_upsert
  by_cases h : c.any (fun q => q.point_id == p.point_id) = true
  · rw [if_pos h]
    have hany : (c.map (fun q => if q.point_id == p.point_id then p else q)).any
        (fun q => q.point_id == p.point_id) = true := by
      rw [List.any_eq_true] at h ⊢
      obtain ⟨x, hx, hxid⟩ := h
      refine ⟨p, ?_, by simp⟩
      exact List.mem_map.mpr ⟨x, hx, by simp [hxid]⟩
    rw [if_pos hany, List.map_map]
    apply List.map_congr_left
    intro x _
    by_cases hx : x.point_id = p.point_id <;> simp [Function.comp, hx]
  · rw [if_neg h]
    have hany : ((c ++ [p]).any (fun q => q.point_id == p.point_id)) = true := by
      simp
    rw [if_pos hany, List.map_append]
    have hnone : ∀ x ∈ c, ¬ (x.point_id = p.point_id) := by
      intro x hx hcon
      apply h
      rw [List.any_eq_true]
      exact ⟨x, hx, by simp [hcon]⟩
    have hmapc : c.map (fun q => if q.point_id == p.point_id then p else q) = c :=
      list_map_fixpoints _ c (fun x hx => by simp [hnone x hx])
    rw [hmapc]
    simp

/-- Storing one embedding while connected appends exactly one point when the
freshly minted uuid4 point id does not already occur in the collection. -/
theorem store_qa_embedding_appends (env : Env) (st : SysState) (qa_id q : String)
    (emb : List ℚ) (m : Option Dict)
    (hc : env.qdrantConnected = true)
    (hfresh : st.qd.all (fun p => p.point_id != env.freshPointUuid st.pointCtr) = true) :
    (store_qa_embedding env st qa_id q emb m).2.qd.length = st.qd.length + 1 := by
  unfold store_qa_embedding
  rw [if_neg (by simp [hc])]
  unfold qdrant_upsert
  have hany : (st.qd.any
      (fun qq => qq.point_id == env.freshPointUuid st.pointCtr)) = false := by
    rw [List.any_eq_false]
    intro x hx
    have := List.all_eq_true.mp hfresh x hx
    simpa using this
  simp only [hany, Bool.false_eq_true, if_false]
  simp

/-- C8 (amended). The raw vector-index upsert is idempotent per point id —
upserting the same point twice equals upserting it once (last writer wins) —
but store_qa_embedding mints a fresh uuid4 point id on every call, so each
connected call with an unused fresh id appends one more point: repeated
storing of the same qa_id accumulates one point per call instead of leaving
a single point. -/
theorem qdrant_upsert_idempotent_store_accumulates :
    (∀ (c : List QdrantPoint) (p : QdrantPoint),
        qdrant_upsert (qdrant_upsert c p) p = qdrant_upsert c p) ∧
    (∀ (env : Env) (st : SysState) (qa_id q : String) (emb : List ℚ) (m : Option Dict),
        env.qdrantConnected = true →
        st.qd.all (fun p => p.point_id != env.freshPointUuid st.pointCtr) = true →
        (store_qa_embedding env st qa_id q emb m).2.qd.length = st.qd.length + 1) :=
  ⟨qdrant_upsert_idem, fun env st qa_id q emb m hc hfresh =>
    store_qa_embedding_appends env st qa_id q emb m hc hfresh⟩

/-- C8 witness: the accumulation half of the amended claim at a concrete
store into the empty collection, hypotheses discharged concretely. -/
theorem qdrant_upsert_idempotent_store_accumulates_witness :
    envGen.qdrantConnected = true ∧
    stEmpty.qd.all (fun p => p.point_id != envGen.freshPointUuid stEmpty.pointCtr) = true ∧
    (store_qa_embedding envGen stEmpty "qa_1" "q?" [1] none).2.qd.length =
      stEmpty.qd.length + 1 :=
  ⟨rfl, rfl,
    qdrant_upsert_idempotent_store_accumulates.2 envGen stEmpty "qa_1" "q?" [1] none rfl rfl⟩
